import Mathlib

/-!
Shallow embedding of the product-registry HTTP service (src/src/main.go).

The service keeps an in-memory map from integer product id to `Product`,
guarded by a read/write mutex.  Two handlers operate on it:

* `getProduct` (GET /products/{productId}): parses the path id, rejects
  ids that fail to parse or are below 1, then looks the id up in the map.
* `addProductDetails` (POST /products/{productId}/details): parses the
  path id, decodes the JSON body into a `Product`, runs `validateProduct`
  over the six field constraints, checks that the body id matches the
  path id, and only then stores the record.

The embedding models the registry as a function `Int → Option Product`
and each handler as a pure function returning its HTTP-level result
together with the registry after the call.  The result of `strconv.Atoi`
on the path parameter is modelled as an `Option Int` (`none` = parse
error) and the result of `ShouldBindJSON` as an `Except String Product`
(`Except.error msg` = decode failure carrying the decode error text), so
that every branch of the Go handlers has a counterpart.  Go's `len` on a
string is its UTF-8 byte length, mirrored here by `String.utf8ByteSize`.
-/

namespace ProductService

/-- The `Product` struct of main.go: six fields decoded from JSON. -/
structure Product where
  product_id : Int
  sku : String
  manufacturer : String
  category_id : Int
  weight : Int
  some_other_id : Int
  deriving DecidableEq, Repr

/-- The `ErrorResponse` struct of main.go: error code, message, details. -/
structure ErrorResponse where
  error : String
  message : String
  details : String
  deriving DecidableEq, Repr

/-- Outcome of the GET handler: 200 with the product, 400, or 404. -/
inductive GetResult where
  | ok (p : Product)
  | badRequest (e : ErrorResponse)
  | notFound (e : ErrorResponse)
  deriving DecidableEq, Repr

/-- Outcome of the POST handler: 204 no content, or 400. -/
inductive PutResult where
  | noContent
  | badRequest (e : ErrorResponse)
  deriving DecidableEq, Repr

/-- The in-memory store `products : map[int]Product`. -/
def Registry := Int → Option Product

/-- The store at process start: `make(map[int]Product)` holds no entry. -/
def emptyRegistry : Registry := fun _ => none

/-- Function `validateProduct` of main.go: returns the message of the first failing
field constraint, or `""` when every constraint holds.  `len` on the Go
strings is their UTF-8 byte count. -/
def validateProduct (p : Product) : String :=
  if p.product_id < 1 then
    "product_id must be >= 1"
  else if p.sku.utf8ByteSize == 0 || p.sku.utf8ByteSize > 100 then
    "sku must be between 1 and 100 characters"
  else if p.manufacturer.utf8ByteSize == 0 || p.manufacturer.utf8ByteSize > 200 then
    "manufacturer must be between 1 and 200 characters"
  else if p.category_id < 1 then
    "category_id must be >= 1"
  else if p.weight < 0 then
    "weight must be >= 0"
  else if p.some_other_id < 1 then
    "some_other_id must be >= 1"
  else
    ""

/-- Handler `getProduct` of main.go.  `pathParam` is the `strconv.Atoi` result on
the `:productId` path segment (`none` = parse error).  Returns the HTTP
result and the registry after the call (reads never change it). -/
def getProduct (reg : Registry) (pathParam : Option Int) : GetResult × Registry :=
  match pathParam with
  | none =>
      (.badRequest ⟨"INVALID_INPUT", "Invalid product ID",
        "Product ID must be a positive integer"⟩, reg)
  | some productID =>
      if productID < 1 then
        (.badRequest ⟨"INVALID_INPUT", "Invalid product ID",
          "Product ID must be a positive integer"⟩, reg)
      else
        match reg productID with
        | none =>
            (.notFound ⟨"NOT_FOUND", "Product not found",
              "No product found with ID " ++ toString productID⟩, reg)
        | some product => (.ok product, reg)

/-- Handler `addProductDetails` of main.go.  `pathParam` is the `strconv.Atoi`
result on the path segment; `body` is the `ShouldBindJSON` result.
Returns the HTTP result and the registry after the call. -/
def addProductDetails (reg : Registry) (pathParam : Option Int)
    (body : Except String Product) : PutResult × Registry :=
  match pathParam with
  | none =>
      (.badRequest ⟨"INVALID_INPUT", "Invalid product ID in path",
        "Product ID must be a positive integer"⟩, reg)
  | some productID =>
      if productID < 1 then
        (.badRequest ⟨"INVALID_INPUT", "Invalid product ID in path",
          "Product ID must be a positive integer"⟩, reg)
      else
        match body with
        | .error e =>
            (.badRequest ⟨"INVALID_INPUT", "Invalid request body", e⟩, reg)
        | .ok p =>
            if validateProduct p ≠ "" then
              (.badRequest ⟨"INVALID_INPUT", "Validation failed",
                validateProduct p⟩, reg)
            else if p.product_id ≠ productID then
              (.badRequest ⟨"INVALID_INPUT", "Product ID mismatch",
                "Path product ID does not match body product_id"⟩, reg)
            else
              (.noContent, fun k => if k = productID then some p else reg k)

/-- The six field rules of `validateProduct` as an explicit ordered list
of (fails?, message) pairs, stated from the spec's validation table; used
to compare the code's early-return chain against the declared order. -/
def fieldRules (p : Product) : List (Bool × String) :=
  [ (decide (p.product_id < 1), "product_id must be >= 1"),
    (p.sku.utf8ByteSize == 0 || p.sku.utf8ByteSize > 100,
      "sku must be between 1 and 100 characters"),
    (p.manufacturer.utf8ByteSize == 0 || p.manufacturer.utf8ByteSize > 200,
      "manufacturer must be between 1 and 200 characters"),
    (decide (p.category_id < 1), "category_id must be >= 1"),
    (decide (p.weight < 0), "weight must be >= 0"),
    (decide (p.some_other_id < 1), "some_other_id must be >= 1") ]

/-- Message of the first failing rule in an ordered rule list, or `""`
when every rule passes (the spec's fail-fast, first-failure contract). -/
def firstFailure : List (Bool × String) → String
  | [] => ""
  | (fails, msg) :: rest => if fails then msg else firstFailure rest

/-- A registry is valid when every stored record passes all six field
constraints of `validateProduct`. -/
def ValidRegistry (reg : Registry) : Prop :=
  ∀ k p, reg k = some p → validateProduct p = ""

/-- Every stored entry sits at the key equal to its own `product_id`,
and that key is at least 1. -/
def KeyConsistent (reg : Registry) : Prop :=
  ∀ k p, reg k = some p → p.product_id = k ∧ 1 ≤ k

/-- A registry operation as seen in a request trace: one GET or one POST
with its already-parsed path parameter and (for POST) decoded body. -/
inductive Op where
  | get (pathParam : Option Int)
  | put (pathParam : Option Int) (body : Except String Product)
  deriving Repr

/-- Run a sequence of handler calls starting from a registry, keeping
only the resulting store. -/
def runOps : Registry → List Op → Registry
  | reg, [] => reg
  | reg, .get pp :: rest => runOps (getProduct reg pp).2 rest
  | reg, .put pp body :: rest => runOps (addProductDetails reg pp body).2 rest

/-- Whether an operation is a POST at path id `id` that succeeds (returns
204).  Success of `addProductDetails` does not depend on the registry, so
it is tested against `emptyRegistry`. -/
def isSuccessfulPutAt (id : Int) : Op → Bool
  | .get _ => false
  | .put pp body =>
      pp == some id &&
        (addProductDetails emptyRegistry pp body).1 == PutResult.noContent

/-- A GET never changes the store: every branch of `getProduct` returns
the registry it was given. -/
theorem getProduct_snd (reg : Registry) (pp : Option Int) :
    (getProduct reg pp).2 = reg := by
  unfold getProduct
  cases pp with
  | none => rfl
  | some id =>
    by_cases h : id < 1
    · simp [h]
    · simp only [if_neg h]
      cases hr : reg id <;> rfl

/-- Case analysis on `addProductDetails`: either every check passes and
the call returns 204 after updating exactly the path key, or some check
fails, the call returns 400, and the store is untouched. -/
theorem addProductDetails_spec (reg : Registry) (pp : Option Int)
    (body : Except String Product) :
    (∃ id p, pp = some id ∧ 1 ≤ id ∧ body = Except.ok p ∧
        validateProduct p = "" ∧ p.product_id = id ∧
        addProductDetails reg pp body =
          (PutResult.noContent, fun k => if k = id then some p else reg k)) ∨
    ((∃ e, (addProductDetails reg pp body).1 = PutResult.badRequest e) ∧
      (addProductDetails reg pp body).2 = reg) := by
  unfold addProductDetails
  cases pp with
  | none => exact Or.inr ⟨⟨_, rfl⟩, rfl⟩
  | some id =>
    by_cases h1 : id < 1
    · right
      simp only [if_pos h1]
      exact ⟨⟨_, rfl⟩, by trivial⟩
    · simp only [if_neg h1]
      cases body with
      | error e => exact Or.inr ⟨⟨_, rfl⟩, rfl⟩
      | ok p =>
        by_cases h2 : validateProduct p ≠ ""
        · right
          simp only [if_pos h2]
          exact ⟨⟨_, rfl⟩, by trivial⟩
        · simp only [if_neg h2]
          by_cases h3 : p.product_id ≠ id
          · right
            simp only [if_pos h3]
            exact ⟨⟨_, rfl⟩, by trivial⟩
          · simp only [if_neg h3]
            exact Or.inl ⟨id, p, rfl, by omega, rfl, not_not.mp h2, not_not.mp h3, rfl⟩

/-- The HTTP result of a POST does not depend on the current store:
every check reads only the path id and the body. -/
theorem addProductDetails_fst_congr (reg reg2 : Registry) (pp : Option Int)
    (body : Except String Product) :
    (addProductDetails reg pp body).1 = (addProductDetails reg2 pp body).1 := by
  unfold addProductDetails
  cases pp with
  | none => rfl
  | some id =>
    by_cases h1 : id < 1
    · simp [h1]
    · simp only [if_neg h1]
      cases body with
      | error e => rfl
      | ok p =>
        by_cases h2 : validateProduct p ≠ ""
        · simp [h2]
        · simp only [if_neg h2]
          by_cases h3 : p.product_id ≠ id
          · simp [h3]
          · simp [h3]

/-- C1: after a successful `Put(p.product_id, p)` (the POST returning
204), an immediately following `Get(p.product_id)` returns exactly `p`. -/
theorem c1_put_then_get_roundtrip (reg : Registry) (id : Int) (p : Product)
    (h : (addProductDetails reg (some id) (Except.ok p)).1 = PutResult.noContent) :
    (getProduct (addProductDetails reg (some id) (Except.ok p)).2 (some id)).1 =
      GetResult.ok p := by
  rcases addProductDetails_spec reg (some id) (Except.ok p) with
    ⟨id2, p2, hpp, hge, hbody, _, _, heq⟩ | ⟨⟨e, he⟩, _⟩
  · cases Option.some.inj hpp
    cases Except.ok.inj hbody
    rw [heq]
    unfold getProduct
    simp only [if_neg (by omega : ¬ id < 1)]
    simp
  · rw [he] at h
    cases h

/-- C1 witness: concrete scenario 1 of the spec, `Put(42, ...)` then
`Get(42)`. -/
theorem c1_witness :
    (addProductDetails emptyRegistry (some 42)
        (Except.ok ⟨42, "ABC", "Acme", 1, 500, 1⟩)).1 = PutResult.noContent ∧
    (getProduct (addProductDetails emptyRegistry (some 42)
        (Except.ok ⟨42, "ABC", "Acme", 1, 500, 1⟩)).2 (some 42)).1 =
      GetResult.ok ⟨42, "ABC", "Acme", 1, 500, 1⟩ :=
  ⟨by decide, c1_put_then_get_roundtrip emptyRegistry 42 _ (by decide)⟩

/-- C2: validity of every stored record is an invariant of both
operations — a GET changes nothing and a POST stores only records that
passed `validateProduct`. -/
theorem c2_registry_invariant (reg : Registry) (ppg ppp : Option Int)
    (body : Except String Product) (h : ValidRegistry reg) :
    ValidRegistry (getProduct reg ppg).2 ∧
      ValidRegistry (addProductDetails reg ppp body).2 := by
  constructor
  · rw [getProduct_snd]
    exact h
  · rcases addProductDetails_spec reg ppp body with
      ⟨id, p, _, _, _, hval, _, heq⟩ | ⟨_, hpres⟩
    · rw [heq]
      intro k q hkq
      by_cases hk : k = id
      · simp only [hk, if_pos rfl] at hkq
        cases Option.some.inj hkq
        exact hval
      · simp only [if_neg hk] at hkq
        exact h k q hkq
    · rw [hpres]
      exact h

/-- C2 witness: the empty registry is valid and stays valid across a GET
and a successful POST. -/
theorem c2_witness :
    ValidRegistry emptyRegistry ∧
    (ValidRegistry (getProduct emptyRegistry (some 42)).2 ∧
      ValidRegistry (addProductDetails emptyRegistry (some 42)
        (Except.ok ⟨42, "ABC", "Acme", 1, 500, 1⟩)).2) :=
  ⟨fun _ _ h => Option.noConfusion h,
    c2_registry_invariant emptyRegistry (some 42) (some 42) _
      (fun _ _ h => Option.noConfusion h)⟩

/-- C3 counterexample: the candidate with `product_id = 0`, empty `sku`
and empty `manufacturer` violates both the sku length rule and the
manufacturer length rule, yet the reported failure is the `product_id`
rule, not the sku failure — so "for every candidate violating both the
sku length rule and the manufacturer length rule, only the sku failure
is reported" is false as stated. -/
theorem c3_counterexample :
    (((Product.mk 0 "" "" 1 0 1).sku.utf8ByteSize == 0 ||
        (Product.mk 0 "" "" 1 0 1).sku.utf8ByteSize > 100) = true) ∧
    (((Product.mk 0 "" "" 1 0 1).manufacturer.utf8ByteSize == 0 ||
        (Product.mk 0 "" "" 1 0 1).manufacturer.utf8ByteSize > 200) = true) ∧
    validateProduct (Product.mk 0 "" "" 1 0 1) ≠
      "sku must be between 1 and 100 characters" ∧
    validateProduct (Product.mk 0 "" "" 1 0 1) = "product_id must be >= 1" := by
  decide

/-- C3 (amended): `validateProduct` reports exactly the first failing
rule of the fixed order product_id, sku, manufacturer, category_id,
weight, some_other_id; in particular a candidate passing the
`product_id` rule and violating both the sku and the manufacturer
length rules reports only the sku failure. -/
theorem c3_first_failing_rule (p : Product) :
    validateProduct p = firstFailure (fieldRules p) ∧
    (¬ p.product_id < 1 →
      (p.sku.utf8ByteSize == 0 || p.sku.utf8ByteSize > 100) = true →
      (p.manufacturer.utf8ByteSize == 0 || p.manufacturer.utf8ByteSize > 200) = true →
      validateProduct p = "sku must be between 1 and 100 characters") := by
  constructor
  · unfold validateProduct
    by_cases h1 : p.product_id < 1
    · simp [fieldRules, firstFailure, h1]
    · by_cases h2 : (p.sku.utf8ByteSize == 0 || p.sku.utf8ByteSize > 100) = true
      · simp [fieldRules, firstFailure, h1, h2]
      · by_cases h3 : (p.manufacturer.utf8ByteSize == 0 ||
            p.manufacturer.utf8ByteSize > 200) = true
        · simp [fieldRules, firstFailure, h1, h2, h3]
        · by_cases h4 : p.category_id < 1
          · simp [fieldRules, firstFailure, h1, h2, h3, h4]
          · by_cases h5 : p.weight < 0
            · simp [fieldRules, firstFailure, h1, h2, h3, h4, h5]
            · by_cases h6 : p.some_other_id < 1
              · simp [fieldRules, firstFailure, h1, h2, h3, h4, h5, h6]
              · simp [fieldRules, firstFailure, h1, h2, h3, h4, h5, h6]
  · intro h1 h2 h3
    unfold validateProduct
    simp [h1, h2]

/-- C3 witness: a candidate with valid `product_id`, empty `sku` and
empty `manufacturer` reports the sku failure. -/
theorem c3_witness :
    validateProduct (Product.mk 1 "" "" 1 0 1) =
      firstFailure (fieldRules (Product.mk 1 "" "" 1 0 1)) ∧
    validateProduct (Product.mk 1 "" "" 1 0 1) =
      "sku must be between 1 and 100 characters" :=
  ⟨(c3_first_failing_rule (Product.mk 1 "" "" 1 0 1)).1,
    (c3_first_failing_rule (Product.mk 1 "" "" 1 0 1)).2
      (by decide) (by decide) (by decide)⟩

/-- C4: when the path id fails to parse or parses below 1, both handlers
return the INVALID_INPUT error built before any registry access, and the
store is returned unchanged. -/
theorem c4_invalid_id_rejected (reg : Registry) (pp : Option Int)
    (body : Except String Product)
    (h : pp = none ∨ ∃ i, pp = some i ∧ i < 1) :
    (getProduct reg pp).1 =
      GetResult.badRequest ⟨"INVALID_INPUT", "Invalid product ID",
        "Product ID must be a positive integer"⟩ ∧
    (getProduct reg pp).2 = reg ∧
    (addProductDetails reg pp body).1 =
      PutResult.badRequest ⟨"INVALID_INPUT", "Invalid product ID in path",
        "Product ID must be a positive integer"⟩ ∧
    (addProductDetails reg pp body).2 = reg := by
  rcases h with h | ⟨i, hpp, hlt⟩
  · subst h
    exact ⟨rfl, rfl, rfl, rfl⟩
  · subst hpp
    unfold getProduct addProductDetails
    simp only [if_pos hlt]
    refine ⟨?_, ?_, ?_, ?_⟩ <;> trivial

/-- C4 witness: concrete scenario 2 of the spec, id `-5`. -/
theorem c4_witness :
    (getProduct emptyRegistry (some (-5))).1 =
      GetResult.badRequest ⟨"INVALID_INPUT", "Invalid product ID",
        "Product ID must be a positive integer"⟩ ∧
    (getProduct emptyRegistry (some (-5))).2 = emptyRegistry ∧
    (addProductDetails emptyRegistry (some (-5))
        (Except.ok ⟨1, "A", "B", 1, 1, 1⟩)).1 =
      PutResult.badRequest ⟨"INVALID_INPUT", "Invalid product ID in path",
        "Product ID must be a positive integer"⟩ ∧
    (addProductDetails emptyRegistry (some (-5))
        (Except.ok ⟨1, "A", "B", 1, 1, 1⟩)).2 = emptyRegistry :=
  c4_invalid_id_rejected emptyRegistry (some (-5)) (Except.ok ⟨1, "A", "B", 1, 1, 1⟩)
    (Or.inr ⟨-5, rfl, by decide⟩)

/-- C5: with a well-formed path id, a body that passes all six field
rules but carries a different `product_id` is rejected with the mismatch
error; a body failing a field rule is rejected with that field failure
(the mismatch error is never the one reported). -/
theorem c5_mismatch_checked_after_fields (reg : Registry) (id : Int) (p : Product)
    (hid : 1 ≤ id) :
    (validateProduct p = "" → p.product_id ≠ id →
      (addProductDetails reg (some id) (Except.ok p)).1 =
        PutResult.badRequest ⟨"INVALID_INPUT", "Product ID mismatch",
          "Path product ID does not match body product_id"⟩) ∧
    (validateProduct p ≠ "" →
      (addProductDetails reg (some id) (Except.ok p)).1 =
        PutResult.badRequest ⟨"INVALID_INPUT", "Validation failed",
          validateProduct p⟩) := by
  constructor
  · intro hval hne
    unfold addProductDetails
    simp only [if_neg (by omega : ¬ id < 1)]
    rw [if_neg (by simp [hval]), if_pos hne]
  · intro hval
    unfold addProductDetails
    simp only [if_neg (by omega : ¬ id < 1)]
    rw [if_pos hval]

/-- C5 witness: concrete scenario 4 of the spec, `Put(7, {product_id: 8,
...otherwise valid...})`, plus a field-rule failure at the same path. -/
theorem c5_witness :
    (addProductDetails emptyRegistry (some 7)
        (Except.ok ⟨8, "ABC", "Acme", 1, 500, 1⟩)).1 =
      PutResult.badRequest ⟨"INVALID_INPUT", "Product ID mismatch",
        "Path product ID does not match body product_id"⟩ ∧
    (addProductDetails emptyRegistry (some 7)
        (Except.ok ⟨8, "", "Acme", 1, 500, 1⟩)).1 =
      PutResult.badRequest ⟨"INVALID_INPUT", "Validation failed",
        validateProduct ⟨8, "", "Acme", 1, 500, 1⟩⟩ :=
  ⟨(c5_mismatch_checked_after_fields emptyRegistry 7 ⟨8, "ABC", "Acme", 1, 500, 1⟩
      (by decide)).1 (by decide) (by decide),
    (c5_mismatch_checked_after_fields emptyRegistry 7 ⟨8, "", "Acme", 1, 500, 1⟩
      (by decide)).2 (by decide)⟩

/-- C6: two successful POSTs at the same path id followed by a GET at
that id return exactly the second record — the second write replaces the
first wholesale. -/
theorem c6_last_writer_wins (reg : Registry) (id : Int) (p1 p2 : Product)
    (_h1 : (addProductDetails reg (some id) (Except.ok p1)).1 = PutResult.noContent)
    (h2 : (addProductDetails (addProductDetails reg (some id) (Except.ok p1)).2
        (some id) (Except.ok p2)).1 = PutResult.noContent) :
    (getProduct (addProductDetails (addProductDetails reg (some id) (Except.ok p1)).2
        (some id) (Except.ok p2)).2 (some id)).1 = GetResult.ok p2 := by
  rcases addProductDetails_spec (addProductDetails reg (some id) (Except.ok p1)).2
      (some id) (Except.ok p2) with
    ⟨id2, q, hpp, hge, hbody, _, _, heq⟩ | ⟨⟨e, he⟩, _⟩
  · cases Option.some.inj hpp
    cases Except.ok.inj hbody
    rw [heq]
    unfold getProduct
    simp only [if_neg (by omega : ¬ id < 1)]
    simp
  · rw [he] at h2
    cases h2

/-- C6 witness: two valid writes at id 42, then a read. -/
theorem c6_witness :
    (addProductDetails emptyRegistry (some 42)
        (Except.ok ⟨42, "ABC", "Acme", 1, 500, 1⟩)).1 = PutResult.noContent ∧
    (addProductDetails (addProductDetails emptyRegistry (some 42)
          (Except.ok ⟨42, "ABC", "Acme", 1, 500, 1⟩)).2 (some 42)
        (Except.ok ⟨42, "XYZ", "Globex", 2, 7, 3⟩)).1 = PutResult.noContent ∧
    (getProduct (addProductDetails (addProductDetails emptyRegistry (some 42)
          (Except.ok ⟨42, "ABC", "Acme", 1, 500, 1⟩)).2 (some 42)
          (Except.ok ⟨42, "XYZ", "Globex", 2, 7, 3⟩)).2 (some 42)).1 =
      GetResult.ok ⟨42, "XYZ", "Globex", 2, 7, 3⟩ :=
  ⟨by decide, by decide,
    c6_last_writer_wins emptyRegistry 42 ⟨42, "ABC", "Acme", 1, 500, 1⟩
      ⟨42, "XYZ", "Globex", 2, 7, 3⟩ (by decide) (by decide)⟩

/-- C7: every POST that returns 400 — whatever the failing check —
returns the store exactly as it was before the call. -/
theorem c7_failed_put_preserves_registry (reg : Registry) (pp : Option Int)
    (body : Except String Product) (e : ErrorResponse)
    (h : (addProductDetails reg pp body).1 = PutResult.badRequest e) :
    (addProductDetails reg pp body).2 = reg := by
  rcases addProductDetails_spec reg pp body with
    ⟨id, p, _, _, _, _, _, heq⟩ | ⟨_, hpres⟩
  · rw [heq] at h
    cases h
  · exact hpres

/-- C7 witness: concrete scenario 4 of the spec — the mismatch rejection
at id 7 leaves the store empty. -/
theorem c7_witness :
    (addProductDetails emptyRegistry (some 7)
        (Except.ok ⟨8, "ABC", "Acme", 1, 500, 1⟩)).1 =
      PutResult.badRequest ⟨"INVALID_INPUT", "Product ID mismatch",
        "Path product ID does not match body product_id"⟩ ∧
    (addProductDetails emptyRegistry (some 7)
        (Except.ok ⟨8, "ABC", "Acme", 1, 500, 1⟩)).2 = emptyRegistry :=
  ⟨by decide,
    c7_failed_put_preserves_registry emptyRegistry (some 7)
      (Except.ok ⟨8, "ABC", "Acme", 1, 500, 1⟩)
      ⟨"INVALID_INPUT", "Product ID mismatch",
        "Path product ID does not match body product_id"⟩ (by decide)⟩

/-- A POST that is not a successful write at key `id` leaves the entry
at `id` unchanged: it either fails and changes nothing, or commits at a
different key. -/
theorem addProductDetails_apply_of_not_successful (reg : Registry)
    (pp : Option Int) (body : Except String Product) (id : Int)
    (h : isSuccessfulPutAt id (Op.put pp body) = false) :
    (addProductDetails reg pp body).2 id = reg id := by
  rcases addProductDetails_spec reg pp body with
    ⟨id2, p, hpp, hge, hbody, hval, hpid, heq⟩ | ⟨_, hpres⟩
  · subst hpp
    subst hbody
    by_cases hk : id = id2
    · exfalso
      subst hk
      simp only [isSuccessfulPutAt] at h
      have hres : (addProductDetails emptyRegistry (some id) (Except.ok p)).1 =
          PutResult.noContent := by
        rw [addProductDetails_fst_congr emptyRegistry reg (some id) (Except.ok p), heq]
      rw [hres] at h
      simp at h
    · rw [heq]
      simp only [if_neg hk]
  · rw [hpres]

/-- Running a trace with no successful write at key `id` leaves the
entry at `id` exactly as it started. -/
theorem runOps_apply_of_no_successful_put (ops : List Op) (reg : Registry)
    (id : Int) (h : (ops.all fun op => !isSuccessfulPutAt id op) = true) :
    runOps reg ops id = reg id := by
  induction ops generalizing reg with
  | nil => rfl
  | cons op rest ih =>
    simp only [List.all_cons, Bool.and_eq_true, Bool.not_eq_true'] at h
    obtain ⟨h1, h2⟩ := h
    cases op with
    | get pp =>
      show runOps (getProduct reg pp).2 rest id = reg id
      rw [getProduct_snd]
      exact ih _ (by simp only [List.all_eq_true] at h2 ⊢; exact fun x hx => by simp [h2 x hx])
    | put pp body =>
      show runOps (addProductDetails reg pp body).2 rest id = reg id
      rw [ih _ (by simp only [List.all_eq_true] at h2 ⊢; exact fun x hx => by simp [h2 x hx])]
      exact addProductDetails_apply_of_not_successful reg pp body id h1

/-- C8: starting from the empty store, after any trace of handler calls
containing no successful write at an id `≥ 1`, a GET at that id returns
the NOT_FOUND error naming the id, and leaves the store unchanged. -/
theorem c8_get_never_put_not_found (ops : List Op) (id : Int) (hid : 1 ≤ id)
    (h : (ops.all fun op => !isSuccessfulPutAt id op) = true) :
    (getProduct (runOps emptyRegistry ops) (some id)).1 =
      GetResult.notFound ⟨"NOT_FOUND", "Product not found",
        "No product found with ID " ++ toString id⟩ ∧
    (getProduct (runOps emptyRegistry ops) (some id)).2 = runOps emptyRegistry ops := by
  have hnone : runOps emptyRegistry ops id = none :=
    runOps_apply_of_no_successful_put ops emptyRegistry id h
  constructor
  · unfold getProduct
    simp only [if_neg (by omega : ¬ id < 1), hnone]
  · exact getProduct_snd _ _

/-- C8 witness: concrete scenario 3 of the spec — after writing id 42
and reading id 7, `Get(9999)` is NOT_FOUND. -/
theorem c8_witness :
    (1 : Int) ≤ 9999 ∧
    ([Op.put (some 42) (Except.ok ⟨42, "ABC", "Acme", 1, 500, 1⟩),
        Op.get (some 7)].all fun op => !isSuccessfulPutAt 9999 op) = true ∧
    (getProduct (runOps emptyRegistry
        [Op.put (some 42) (Except.ok ⟨42, "ABC", "Acme", 1, 500, 1⟩),
          Op.get (some 7)]) (some 9999)).1 =
      GetResult.notFound ⟨"NOT_FOUND", "Product not found",
        "No product found with ID " ++ toString (9999 : Int)⟩ :=
  ⟨by decide, by decide,
    (c8_get_never_put_not_found
      [Op.put (some 42) (Except.ok ⟨42, "ABC", "Acme", 1, 500, 1⟩),
        Op.get (some 7)] 9999 (by decide) (by decide)).1⟩

/-- C10: key/record consistency — every stored entry sits at the key
equal to its record's `product_id` (a key `≥ 1`) — is preserved by every
POST, and a GET that finds an entry returns a record whose `product_id`
is the requested id. -/
theorem c10_key_matches_product_id (reg : Registry) (pp : Option Int)
    (body : Except String Product) (h : KeyConsistent reg) :
    KeyConsistent (addProductDetails reg pp body).2 ∧
    (∀ id p, (getProduct reg (some id)).1 = GetResult.ok p → p.product_id = id) := by
  constructor
  · rcases addProductDetails_spec reg pp body with
      ⟨id, p, _, hge, _, _, hpid, heq⟩ | ⟨_, hpres⟩
    · rw [heq]
      intro k q hkq
      by_cases hk : k = id
      · subst hk
        simp only [if_pos rfl] at hkq
        cases Option.some.inj hkq
        exact ⟨hpid, by omega⟩
      · simp only [if_neg hk] at hkq
        exact h k q hkq
    · rw [hpres]
      exact h
  · intro id p hget
    simp only [getProduct] at hget
    by_cases hlt : id < 1
    · rw [if_pos hlt] at hget
      cases hget
    · rw [if_neg hlt] at hget
      cases hr : reg id with
      | none =>
        rw [hr] at hget
        cases hget
      | some q =>
        rw [hr] at hget
        cases GetResult.ok.inj hget
        exact (h id p hr).1

/-- C10 witness: the empty store is key-consistent, stays so across a
successful write, and a read that finds the stored record returns the
requested id inside it. -/
theorem c10_witness :
    KeyConsistent emptyRegistry ∧
    (KeyConsistent (addProductDetails emptyRegistry (some 42)
        (Except.ok ⟨42, "ABC", "Acme", 1, 500, 1⟩)).2 ∧
      (∀ id p, (getProduct emptyRegistry (some id)).1 = GetResult.ok p →
        p.product_id = id)) :=
  ⟨fun _ _ hx => Option.noConfusion hx,
    c10_key_matches_product_id emptyRegistry (some 42)
      (Except.ok ⟨42, "ABC", "Acme", 1, 500, 1⟩)
      (fun _ _ hx => Option.noConfusion hx)⟩

end ProductService
